import Mathlib

/-
Verification of the student-union event ticketing backend: a shallow
embedding of the seat-reservation, registration, ticket-issuance and
check-in core (apps/events/models.py, views_student.py, views_checkin.py)
together with proofs of the specified properties.

Django semantics captured by the embedding:
  * the database is an explicit record of tables (lists of rows);
  * `Model.objects.get/filter(...).first()` is `List.find?`;
  * `get_or_create` looks up first and appends a fresh row otherwise;
  * a view wrapped in `@transaction.atomic` that *returns* an error
    Response commits everything written so far (Django only rolls an
    atomic block back when an exception escapes it), while an uncaught
    exception (e.g. a NameError) rolls the whole block back;
  * Python truthiness (`if not telegram_id`, `if seat_id`) is modelled
    explicitly: `None`, `0` and `""` are falsy;
  * randomness (uuid4, secrets.token_hex) is modelled by passing the
    random draws as explicit parameters, and the per-ticket default
    token by an explicit supply in the database state.
-/

namespace StudentUnion

/-- SeatStatus choices from apps/events/models.py. -/
inductive SeatStatus
  | free
  | reserved
  | sold
  | blocked
  deriving DecidableEq, Repr

/-- RegistrationStatus choices from apps/events/models.py. -/
inductive RegistrationStatus
  | pending
  | confirmed
  | rejected
  | cancelled
  | waitlist
  deriving DecidableEq, Repr

/-- PaymentStatus choices from apps/events/models.py. -/
inductive PaymentStatus
  | none
  | pending
  | paid
  | failed
  | refunded
  deriving DecidableEq, Repr

/-- Event row (the fields the registration and check-in core reads). -/
structure Event where
  id : Nat
  slug : String
  title : String
  is_active : Bool
  is_paid : Bool
  base_price : Option Nat
  deriving DecidableEq, Repr

/-- UserProfile row from apps/accounts/models.py, keyed by telegram_id. -/
structure UserProfile where
  id : Nat
  telegram_id : Nat
  telegram_username : String
  full_name : String
  phone : String
  deriving DecidableEq, Repr

/-- Seat row: belongs to an event, carries a status and an optional
reserving user. -/
structure Seat where
  id : Nat
  event : Nat
  status : SeatStatus
  reserved_by : Option Nat
  deriving DecidableEq, Repr

/-- Registration row: unique per (event, user). -/
structure Registration where
  id : Nat
  event : Nat
  user : Nat
  status : RegistrationStatus
  payment_status : PaymentStatus
  promo_code : String
  final_price : Nat
  deriving DecidableEq, Repr

/-- Ticket row: one per registration, optional seat, unique token,
single-use flag with timestamp. -/
structure Ticket where
  id : Nat
  registration : Nat
  seat : Option Nat
  token : String
  is_used : Bool
  used_at : Option Nat
  deriving DecidableEq, Repr

/-- CheckInLog row: audit record of one successful redemption. -/
structure CheckInLog where
  ticket : Nat
  checked_by : Option Nat
  deriving DecidableEq, Repr

/-- TelegramAccount row from apps/users/models.py, used only to resolve
the optional checker identity at check-in. -/
structure TelegramAccount where
  telegram_user_id : Nat
  user : Nat
  deriving DecidableEq, Repr

/-- The persistent store: one list per table, fresh-id counters, the
supply of ticket tokens the column default will draw from, and a clock
used for timezone.now(). -/
structure DB where
  events : List Event
  users : List UserProfile
  seats : List Seat
  registrations : List Registration
  tickets : List Ticket
  logs : List CheckInLog
  tgAccounts : List TelegramAccount
  nextUserId : Nat
  nextRegId : Nat
  nextTicketId : Nat
  tokenSupply : List String
  now : Nat
  deriving DecidableEq, Repr

/-- Python truthiness of an optional integer field: absent and 0 are
falsy. -/
def truthyNat : Option Nat → Bool
  | Option.none => false
  | Option.some n => n != 0

/-- Python truthiness of an optional string field: absent and "" are
falsy. -/
def truthyStr : Option String → Bool
  | Option.none => false
  | Option.some s => s != ""

/-- Request body of POST /api/events/(slug)/register/ as read by
EventRegisterView.post. -/
structure RegisterRequest where
  telegram_id : Option Nat
  telegram_username : String
  full_name : Option String
  phone : String
  promo_code : String
  seat_id : Option Nat
  deriving DecidableEq, Repr

/-- Outcome of EventRegisterView.post, one constructor per Response the
view can return. -/
inductive RegResult
  | eventNotFound
  | badRequest
  | seatNotFound
  | seatUnavailable
  | ok (httpStatus : Nat) (reg : Registration) (ticket : Option Ticket)
  deriving DecidableEq, Repr

/-- Event.objects.get(slug=slug, is_active=True). -/
def findEvent (db : DB) (slug : String) : Option Event :=
  db.events.find? (fun e => e.slug == slug && e.is_active)

/-- UserProfile.objects.get_or_create(telegram_id=..., defaults=...):
returns the updated store, the row, and whether it was created. -/
def getOrCreateUser (db : DB) (tid : Nat) (username fullName phone : String) :
    DB × UserProfile × Bool :=
  match db.users.find? (fun u => u.telegram_id == tid) with
  | Option.some u => (db, u, false)
  | Option.none =>
    let u : UserProfile :=
      { id := db.nextUserId, telegram_id := tid, telegram_username := username,
        full_name := fullName, phone := phone }
    ({ db with users := db.users ++ [u], nextUserId := db.nextUserId + 1 }, u, true)

/-- Registration.objects.get_or_create(event=event, user=user,
defaults=...) with the defaults of views_student.py lines 50-59:
promo_code as given, final_price = event.base_price or 0, payment_status
NONE for a free event else PENDING, status CONFIRMED for a free event
else PENDING. -/
def getOrCreateRegistration (db : DB) (event : Event) (user : UserProfile)
    (promo : String) : DB × Registration × Bool :=
  match db.registrations.find? (fun r => r.event == event.id && r.user == user.id) with
  | Option.some r => (db, r, false)
  | Option.none =>
    let r : Registration :=
      { id := db.nextRegId, event := event.id, user := user.id,
        status := if event.is_paid then RegistrationStatus.pending
                  else RegistrationStatus.confirmed,
        payment_status := if event.is_paid then PaymentStatus.pending
                          else PaymentStatus.none,
        promo_code := promo,
        final_price := event.base_price.getD 0 }
    ({ db with registrations := db.registrations ++ [r],
               nextRegId := db.nextRegId + 1 }, r, true)

/-- Ticket.objects.create(registration=..., seat=...): the token column
default draws the next token from the supply. -/
def createTicket (db : DB) (reg : Registration) (seatId : Option Nat) :
    DB × Ticket :=
  let t : Ticket :=
    { id := db.nextTicketId, registration := reg.id, seat := seatId,
      token := db.tokenSupply.headD "", is_used := false, used_at := Option.none }
  ({ db with tickets := db.tickets ++ [t], nextTicketId := db.nextTicketId + 1,
             tokenSupply := db.tokenSupply.tail }, t)

/-- Ticket.objects.get_or_create(registration=registration,
defaults=dict(seat=seat)) followed by the seat repointing of
views_student.py lines 83-85: if the existing ticket references a
different seat, its seat field is updated in place. -/
def ticketGetOrCreateSeat (db : DB) (reg : Registration) (seat : Seat) :
    DB × Ticket :=
  match db.tickets.find? (fun t => t.registration == reg.id) with
  | Option.some t =>
    if t.seat != Option.some seat.id then
      let t2 : Ticket := { t with seat := Option.some seat.id }
      ({ db with tickets := db.tickets.map (fun x =>
          if x.id == t.id then { x with seat := Option.some seat.id } else x) }, t2)
    else (db, t)
  | Option.none => createTicket db reg (Option.some seat.id)

/-- EventRegisterView.post of apps/events/views_student.py, line by
line.  Error Responses returned from inside the atomic block commit the
rows already written (user and registration get_or_create), because no
exception escapes the block. -/
def register (db : DB) (slug : String) (req : RegisterRequest) : DB × RegResult :=
  match findEvent db slug with
  | Option.none => (db, RegResult.eventNotFound)
  | Option.some event =>
    if !truthyNat req.telegram_id || !truthyStr req.full_name then
      (db, RegResult.badRequest)
    else
      let gu := getOrCreateUser db (req.telegram_id.getD 0) req.telegram_username
        (req.full_name.getD "") req.phone
      let db1 := gu.1
      let user := gu.2.1
      let gr := getOrCreateRegistration db1 event user req.promo_code
      let db2 := gr.1
      let reg := gr.2.1
      let created := gr.2.2
      if truthyNat req.seat_id then
        match db2.seats.find? (fun s => s.id == req.seat_id.getD 0 && s.event == event.id) with
        | Option.none => (db2, RegResult.seatNotFound)
        | Option.some seat =>
          if seat.status != SeatStatus.free then
            (db2, RegResult.seatUnavailable)
          else
            let seat2 : Seat :=
              { seat with
                status := if event.is_paid then SeatStatus.reserved else SeatStatus.sold,
                reserved_by := Option.some user.id }
            let db3 :=
              { db2 with seats := db2.seats.map (fun s =>
                  if s.id == seat.id then
                    { s with status := seat2.status, reserved_by := seat2.reserved_by }
                  else s) }
            let tr := ticketGetOrCreateSeat db3 reg seat2
            (tr.1, RegResult.ok (if created then 201 else 200) reg (Option.some tr.2))
      else
        if !event.is_paid && req.seat_id == Option.none && created then
          let ct := createTicket db2 reg Option.none
          (ct.1, RegResult.ok 201 reg (Option.some ct.2))
        else
          (db2, RegResult.ok (if created then 201 else 200) reg Option.none)

/-- Request body of POST /api/checkin/ as read by CheckInView.post. -/
structure CheckInRequest where
  token : Option String
  checker_telegram_id : Option Nat
  deriving DecidableEq, Repr

/-- Outcome of CheckInView.post.  `nameError` is the uncaught Python
NameError raised at CheckInLog.objects.create when the local variable
checked_by was never assigned (it is only assigned inside the
`if checker_tid:` branch of views_checkin.py lines 48-57); the escaping
exception makes transaction.atomic roll the whole request back. -/
inductive CheckInResult
  | badRequest
  | notFound
  | alreadyUsed (used_at : Option Nat)
  | ok (used_at : Option Nat)
  | nameError
  deriving DecidableEq, Repr

/-- TelegramAccount.objects.filter(telegram_user_id=tid).first(),
projected to the linked user id. -/
def resolveChecker (db : DB) (tid : Nat) : Option Nat :=
  (db.tgAccounts.find? (fun a => a.telegram_user_id == tid)).map (fun a => a.user)

/-- CheckInView.post of apps/events/views_checkin.py, line by line:
missing token is a 400; unknown token a 404; a used ticket returns
AlreadyUsed carrying the stored used_at and changes nothing; otherwise,
when a checker_telegram_id was supplied, checked_by is bound (to the
resolved user or None) and the redemption commits mark_used plus one
CheckInLog row; when no checker_telegram_id was supplied, checked_by is
never bound, the log insert raises NameError and the transaction rolls
back. -/
def checkIn (db : DB) (req : CheckInRequest) : DB × CheckInResult :=
  if !truthyStr req.token then
    (db, CheckInResult.badRequest)
  else
    match db.tickets.find? (fun t => t.token == req.token.getD "") with
    | Option.none => (db, CheckInResult.notFound)
    | Option.some ticket =>
      if ticket.is_used then
        (db, CheckInResult.alreadyUsed ticket.used_at)
      else
        if truthyNat req.checker_telegram_id then
          let checked_by := resolveChecker db (req.checker_telegram_id.getD 0)
          let db2 :=
            { db with
              tickets := db.tickets.map (fun t =>
                if t.id == ticket.id then { t with is_used := true, used_at := Option.some db.now } else t),
              logs := db.logs ++ [{ ticket := ticket.id, checked_by := checked_by }] }
          (db2, CheckInResult.ok (Option.some db.now))
        else
          (db, CheckInResult.nameError)

/-- What one check-in request holds in process memory after its ticket
fetch: the fetch at views_checkin.py line 31 uses select_related but NOT
select_for_update, so it takes no row lock and other requests may run
between this read and the request's own write. -/
structure TicketSnapshot where
  ticketId : Nat
  is_used : Bool
  used_at : Option Nat
  deriving DecidableEq, Repr

/-- Unlocked read phase of CheckInView.post: fetch the ticket by token
into process memory. -/
def checkInReadTicket (db : DB) (tok : String) : Option TicketSnapshot :=
  (db.tickets.find? (fun t => t.token == tok)).map
    (fun t => { ticketId := t.id, is_used := t.is_used, used_at := t.used_at })

/-- Decision-and-write phase of CheckInView.post: the `if ticket.is_used`
test and mark_used both consult the in-memory snapshot, not the current
row, because no lock was held across the read. -/
def checkInDecideWrite (db : DB) (snap : TicketSnapshot) (checked_by : Option Nat) :
    DB × CheckInResult :=
  if snap.is_used then
    (db, CheckInResult.alreadyUsed snap.used_at)
  else
    let db2 :=
      { db with
        tickets := db.tickets.map (fun t =>
          if t.id == snap.ticketId then { t with is_used := true, used_at := Option.some db.now } else t),
        logs := db.logs ++ [{ ticket := snap.ticketId, checked_by := checked_by }] }
    (db2, CheckInResult.ok (Option.some db.now))

/-- Lowercase hex digit of a nibble, as used by uuid4().hex and
secrets.token_hex. -/
def hexDigit (n : Nat) : Char :=
  if n < 10 then Char.ofNat (48 + n) else Char.ofNat (87 + n)

/-- Two-character lowercase hex encoding of one byte. -/
def byteHex (b : Nat) : List Char :=
  [hexDigit (b / 16 % 16), hexDigit (b % 16)]

/-- Lowercase hex encoding of a byte string. -/
def bytesHex (bs : List Nat) : String :=
  String.mk (bs.map byteHex).flatten

/-- uuid.uuid4().hex: the 32-digit hex form of the 16 bytes of a freshly
drawn version-4 UUID; the draw is passed explicitly. -/
def uuid4Hex (uuidBytes : List Nat) : String :=
  bytesHex uuidBytes

/-- secrets.token_hex(16): the hex form of 16 freshly drawn random
bytes; the draw is passed explicitly. -/
def token_hex (secretBytes : List Nat) : String :=
  bytesHex secretBytes

/-- generate_ticket_token of apps/events/models.py lines 206-209:
raw = uuid.uuid4().hex; secret = secrets.token_hex(16); the token is the
concatenation raw + secret.  Its only inputs are the two independent
random draws: no user id, seat id or timestamp reaches it. -/
def generate_ticket_token (uuidBytes secretBytes : List Nat) : String :=
  uuid4Hex uuidBytes ++ token_hex secretBytes

/-- A free active event fixture. -/
def freeEvent : Event :=
  { id := 1, slug := "picnic", title := "Spring Picnic", is_active := true,
    is_paid := false, base_price := Option.none }

/-- A paid active event fixture. -/
def paidEvent : Event :=
  { id := 2, slug := "gala", title := "Spring Gala", is_active := true,
    is_paid := true, base_price := Option.some 100000 }

/-- A free seat under the paid event. -/
def seat5 : Seat :=
  { id := 5, event := 2, status := SeatStatus.free, reserved_by := Option.none }

/-- Base store fixture: two events, one free seat, one telegram account
for checker resolution, empty registration and ticket tables. -/
def db0 : DB :=
  { events := [freeEvent, paidEvent], users := [], seats := [seat5],
    registrations := [], tickets := [], logs := [],
    tgAccounts := [{ telegram_user_id := 77, user := 9 }],
    nextUserId := 1, nextRegId := 1, nextTicketId := 1,
    tokenSupply := ["tks1", "tks2", "tks3"], now := 42 }

/-- Registration request fixture with no seat. -/
def reqNoSeat : RegisterRequest :=
  { telegram_id := Option.some 10, telegram_username := "alice",
    full_name := Option.some "Alice A", phone := "+1", promo_code := "P",
    seat_id := Option.none }

/-- Registration request fixture targeting seat 5. -/
def reqSeat5 : RegisterRequest :=
  { telegram_id := Option.some 10, telegram_username := "alice",
    full_name := Option.some "Alice A", phone := "+1", promo_code := "P",
    seat_id := Option.some 5 }

/-- Registration request fixture targeting a seat id that does not
exist. -/
def reqSeat999 : RegisterRequest :=
  { telegram_id := Option.some 10, telegram_username := "alice",
    full_name := Option.some "Alice A", phone := "+1", promo_code := "P",
    seat_id := Option.some 999 }

/-- Expected registration row for the free-event fixture. -/
def regFreeRow : Registration :=
  { id := 1, event := 1, user := 1, status := RegistrationStatus.confirmed,
    payment_status := PaymentStatus.none, promo_code := "P", final_price := 0 }

/-- Expected ticket row for the free-event fixture. -/
def ticketFreeRow : Ticket :=
  { id := 1, registration := 1, seat := Option.none, token := "tks1",
    is_used := false, used_at := Option.none }

/-- Expected registration row for the paid-event seat fixture. -/
def regPaidRow : Registration :=
  { id := 1, event := 2, user := 1, status := RegistrationStatus.pending,
    payment_status := PaymentStatus.pending, promo_code := "P",
    final_price := 100000 }

/-- Expected ticket row for the paid-event seat fixture. -/
def ticketPaidRow : Ticket :=
  { id := 1, registration := 1, seat := Option.some 5, token := "tks1",
    is_used := false, used_at := Option.none }

example : (register db0 "picnic" reqNoSeat).2 =
    RegResult.ok 201 regFreeRow (Option.some ticketFreeRow) := by decide

example :
    (register (register db0 "picnic" reqNoSeat).1 "picnic" reqNoSeat).2 =
    RegResult.ok 200 regFreeRow Option.none := by decide

example : (register (register db0 "picnic" reqNoSeat).1 "picnic" reqNoSeat).1.tickets.length = 1 := by decide

example : (register db0 "gala" reqNoSeat).1.tickets.length = 0 := by decide
example : (register (register db0 "gala" reqNoSeat).1 "gala" reqNoSeat).1.tickets.length = 0 := by decide

example : ((register db0 "gala" reqSeat5).1.seats, (register db0 "gala" reqSeat5).2) =
    ([{ id := 5, event := 2, status := SeatStatus.reserved, reserved_by := Option.some 1 }],
     RegResult.ok 201 regPaidRow (Option.some ticketPaidRow)) := by decide

example :
    (checkIn (register db0 "picnic" reqNoSeat).1
      { token := Option.some "tks1", checker_telegram_id := Option.some 77 }).2 =
    CheckInResult.ok (Option.some 42) := by decide

example :
    (checkIn (register db0 "picnic" reqNoSeat).1
      { token := Option.some "tks1", checker_telegram_id := Option.some 77 }).1.logs =
    [{ ticket := 1, checked_by := Option.some 9 }] := by decide

example :
    (checkIn (register db0 "picnic" reqNoSeat).1
      { token := Option.some "tks1", checker_telegram_id := Option.none }) =
    ((register db0 "picnic" reqNoSeat).1, CheckInResult.nameError) := by decide

example :
    (checkIn db0 { token := Option.some "zzz", checker_telegram_id := Option.some 77 }) =
    (db0, CheckInResult.notFound) := by decide

example : generate_ticket_token [171, 0, 255] [16] = "ab00ff10" := by decide

/-- The user upsert touches only the users table and its counter. -/
theorem getOrCreateUser_seats (db : DB) (tid : Nat) (a b c : String) :
    (getOrCreateUser db tid a b c).1.seats = db.seats := by
  unfold getOrCreateUser; split <;> rfl

/-- The user upsert leaves the tickets table unchanged. -/
theorem getOrCreateUser_tickets (db : DB) (tid : Nat) (a b c : String) :
    (getOrCreateUser db tid a b c).1.tickets = db.tickets := by
  unfold getOrCreateUser; split <;> rfl

/-- The user upsert leaves the registrations table unchanged. -/
theorem getOrCreateUser_registrations (db : DB) (tid : Nat) (a b c : String) :
    (getOrCreateUser db tid a b c).1.registrations = db.registrations := by
  unfold getOrCreateUser; split <;> rfl

/-- The user upsert leaves the check-in log unchanged. -/
theorem getOrCreateUser_logs (db : DB) (tid : Nat) (a b c : String) :
    (getOrCreateUser db tid a b c).1.logs = db.logs := by
  unfold getOrCreateUser; split <;> rfl

/-- The registration upsert touches only the registrations table and its
counter. -/
theorem getOrCreateRegistration_seats (db : DB) (e : Event) (u : UserProfile)
    (promo : String) : (getOrCreateRegistration db e u promo).1.seats = db.seats := by
  unfold getOrCreateRegistration; split <;> rfl

/-- The registration upsert leaves the tickets table unchanged. -/
theorem getOrCreateRegistration_tickets (db : DB) (e : Event) (u : UserProfile)
    (promo : String) : (getOrCreateRegistration db e u promo).1.tickets = db.tickets := by
  unfold getOrCreateRegistration; split <;> rfl

/-- The registration upsert leaves the users table unchanged. -/
theorem getOrCreateRegistration_users (db : DB) (e : Event) (u : UserProfile)
    (promo : String) : (getOrCreateRegistration db e u promo).1.users = db.users := by
  unfold getOrCreateRegistration; split <;> rfl

/-- The registration upsert leaves the check-in log unchanged. -/
theorem getOrCreateRegistration_logs (db : DB) (e : Event) (u : UserProfile)
    (promo : String) : (getOrCreateRegistration db e u promo).1.logs = db.logs := by
  unfold getOrCreateRegistration; split <;> rfl

/-- Ticket creation leaves the seats table unchanged. -/
theorem createTicket_seats (db : DB) (reg : Registration) (s : Option Nat) :
    (createTicket db reg s).1.seats = db.seats := rfl

/-- Ticket creation leaves the registrations table unchanged. -/
theorem createTicket_registrations (db : DB) (reg : Registration) (s : Option Nat) :
    (createTicket db reg s).1.registrations = db.registrations := rfl

/-- Ticket creation appends exactly one unused ticket. -/
theorem createTicket_tickets (db : DB) (reg : Registration) (s : Option Nat) :
    (createTicket db reg s).1.tickets = db.tickets ++ [(createTicket db reg s).2] := rfl

/-- Ticket creation leaves the check-in log unchanged. -/
theorem createTicket_logs (db : DB) (reg : Registration) (s : Option Nat) :
    (createTicket db reg s).1.logs = db.logs := rfl

/-- The ticket get-or-create with seat repointing leaves the seats table
unchanged. -/
theorem ticketGetOrCreateSeat_seats (db : DB) (reg : Registration) (seat : Seat) :
    (ticketGetOrCreateSeat db reg seat).1.seats = db.seats := by
  unfold ticketGetOrCreateSeat
  split
  case h_1 t ht => split <;> rfl
  case h_2 => exact createTicket_seats _ _ _

/-- The ticket get-or-create with seat repointing leaves the
registrations table unchanged. -/
theorem ticketGetOrCreateSeat_registrations (db : DB) (reg : Registration) (seat : Seat) :
    (ticketGetOrCreateSeat db reg seat).1.registrations = db.registrations := by
  unfold ticketGetOrCreateSeat
  split
  case h_1 t ht => split <;> rfl
  case h_2 => exact createTicket_registrations _ _ _

/-- The ticket get-or-create with seat repointing leaves the check-in
log unchanged. -/
theorem ticketGetOrCreateSeat_logs (db : DB) (reg : Registration) (seat : Seat) :
    (ticketGetOrCreateSeat db reg seat).1.logs = db.logs := by
  unfold ticketGetOrCreateSeat
  split
  case h_1 t ht => split <;> rfl
  case h_2 => exact createTicket_logs _ _ _

/-- Store state after the successful free-event registration fixture:
one unused ticket with token tks1. -/
def dbReg : DB := (register db0 "picnic" reqNoSeat).1

/-- Store state after that ticket was redeemed once (checker telegram id
77 resolves to user 9). -/
def dbUsed : DB :=
  (checkIn dbReg { token := Option.some "tks1", checker_telegram_id := Option.some 77 }).1

/-- C1: the check-in view fetches the ticket row without
select_for_update, so nothing serializes the gap between one request's
is_used test and its write.  Against the claimed at-most-once property,
the interleaving in which both of two concurrent check-ins of the same
valid token read before either writes makes BOTH succeed and appends TWO
CheckInLog rows, instead of one success and one AlreadyUsed. -/
theorem checkin_unlocked_double_redemption :
    ∃ snap,
      checkInReadTicket dbReg "tks1" = Option.some snap ∧
      (checkInDecideWrite dbReg snap (Option.some 9)).2 =
        CheckInResult.ok (Option.some 42) ∧
      (checkInDecideWrite (checkInDecideWrite dbReg snap (Option.some 9)).1
          snap (Option.some 9)).2 = CheckInResult.ok (Option.some 42) ∧
      (checkInDecideWrite (checkInDecideWrite dbReg snap (Option.some 9)).1
          snap (Option.some 9)).1.logs.length = 2 := by
  refine ⟨{ ticketId := 1, is_used := false, used_at := Option.none }, ?_, ?_, ?_, ?_⟩ <;> decide

/-- Faithfulness of the read/write split: for a well-formed request with
a supplied checker, the sequential view body is exactly the read phase
followed immediately by the decide-and-write phase.  The race of
checkin_unlocked_double_redemption arises because no lock forces the two
phases of one request to be adjacent in the interleaving. -/
theorem checkIn_eq_read_then_write (db : DB) (req : CheckInRequest)
    (htok : truthyStr req.token = true)
    (hch : truthyNat req.checker_telegram_id = true) :
    checkIn db req =
      match checkInReadTicket db (req.token.getD "") with
      | Option.none => (db, CheckInResult.notFound)
      | Option.some snap =>
        checkInDecideWrite db snap (resolveChecker db (req.checker_telegram_id.getD 0)) := by
  unfold checkIn checkInReadTicket checkInDecideWrite
  rw [htok, hch]
  cases h : db.tickets.find? (fun t => t.token == req.token.getD "") with
  | none => rfl
  | some t => cases hu : t.is_used <;> simp [hu]

/-- C5: intent is that a redemption with an unidentifiable checker still
succeeds with a null checker.  The code only binds the local checked_by
inside the `if checker_tid:` branch, so a check-in whose request omits
checker_telegram_id reaches CheckInLog.objects.create with checked_by
unbound: NameError, the atomic transaction rolls back and the ticket
stays unused.  When a checker id is supplied but resolves to no known
account, the redemption does succeed and logs a null checker. -/
theorem checkin_missing_checker_name_error :
    checkIn dbReg { token := Option.some "tks1", checker_telegram_id := Option.none } =
      (dbReg, CheckInResult.nameError) ∧
    (checkIn dbReg { token := Option.some "tks1", checker_telegram_id := Option.some 555 }).2 =
      CheckInResult.ok (Option.some 42) ∧
    (checkIn dbReg { token := Option.some "tks1", checker_telegram_id := Option.some 555 }).1.logs =
      [{ ticket := 1, checked_by := Option.none }] := by
  refine ⟨?_, ?_, ?_⟩ <;> decide

/-- C6: with the token supplied, an unknown token fails NotFound and the
whole store is returned unchanged; a token whose ticket is already used
fails AlreadyUsed carrying the stored used_at, again with the store
unchanged (is_used stays true, used_at keeps its value, no CheckInLog
row is appended). -/
theorem checkin_replay_and_unknown_token (db : DB) (req : CheckInRequest)
    (htok : truthyStr req.token = true) :
    (db.tickets.find? (fun t => t.token == req.token.getD "") = Option.none →
      checkIn db req = (db, CheckInResult.notFound)) ∧
    (∀ ticket, db.tickets.find? (fun t => t.token == req.token.getD "") = Option.some ticket →
      ticket.is_used = true →
      checkIn db req = (db, CheckInResult.alreadyUsed ticket.used_at)) := by
  constructor
  · intro h
    unfold checkIn
    rw [htok, h]
    simp
  · intro ticket h hu
    unfold checkIn
    rw [htok, h]
    simp [hu]

/-- The user row the register view resolves or creates for a request
(projection of getOrCreateUser as called by the view). -/
def acquiringUser (db : DB) (req : RegisterRequest) : UserProfile :=
  (getOrCreateUser db (req.telegram_id.getD 0) req.telegram_username
    (req.full_name.getD "") req.phone).2.1

/-- The store after the register view's user upsert. -/
def dbAfterUser (db : DB) (req : RegisterRequest) : DB :=
  (getOrCreateUser db (req.telegram_id.getD 0) req.telegram_username
    (req.full_name.getD "") req.phone).1

/-- The register view's registration upsert: the store after it, the
registration row, and whether that row was newly created. -/
def regUpsert (db : DB) (event : Event) (req : RegisterRequest) :
    DB × Registration × Bool :=
  getOrCreateRegistration (dbAfterUser db req) event (acquiringUser db req)
    req.promo_code

/-- Seats are untouched by the user and registration upserts. -/
theorem regUpsert_seats (db : DB) (event : Event) (req : RegisterRequest) :
    (regUpsert db event req).1.seats = db.seats := by
  unfold regUpsert dbAfterUser
  rw [getOrCreateRegistration_seats, getOrCreateUser_seats]

/-- Tickets are untouched by the user and registration upserts. -/
theorem regUpsert_tickets (db : DB) (event : Event) (req : RegisterRequest) :
    (regUpsert db event req).1.tickets = db.tickets := by
  unfold regUpsert dbAfterUser
  rw [getOrCreateRegistration_tickets, getOrCreateUser_tickets]

/-- Normal form of the register view when the request passes validation
and supplies a (truthy) seat id: after the two upserts the view locks
and inspects the seat, fails NotFound or Unavailable while keeping the
upserts, or updates the seat row and binds the ticket. -/
theorem register_seat_eq (db : DB) (slug : String) (req : RegisterRequest)
    (event : Event) (sid : Nat)
    (hev : findEvent db slug = Option.some event)
    (htid : truthyNat req.telegram_id = true)
    (hname : truthyStr req.full_name = true)
    (hsid : req.seat_id = Option.some sid) (hs0 : sid ≠ 0) :
    register db slug req =
      (match (regUpsert db event req).1.seats.find?
          (fun s => s.id == sid && s.event == event.id) with
       | Option.none => ((regUpsert db event req).1, RegResult.seatNotFound)
       | Option.some seat =>
         if seat.status != SeatStatus.free then
           ((regUpsert db event req).1, RegResult.seatUnavailable)
         else
           let newStatus := if event.is_paid then SeatStatus.reserved else SeatStatus.sold
           let db3 :=
             { (regUpsert db event req).1 with
               seats := (regUpsert db event req).1.seats.map (fun s =>
                 if s.id == seat.id then
                   { s with status := newStatus,
                            reserved_by := Option.some (acquiringUser db req).id }
                 else s) }
           let tr := ticketGetOrCreateSeat db3 (regUpsert db event req).2.1
             { seat with status := newStatus,
                         reserved_by := Option.some (acquiringUser db req).id }
           (tr.1, RegResult.ok (if (regUpsert db event req).2.2 then 201 else 200)
             (regUpsert db event req).2.1 (Option.some tr.2))) := by
  have hst : truthyNat (Option.some sid) = true := by
    simp [truthyNat, hs0]
  unfold register regUpsert dbAfterUser acquiringUser
  rw [hev]
  simp [htid, hname, hst, hsid]

/-- Normal form of the register view when the request passes validation
and supplies no seat id: the two upserts, then a ticket exactly when the
event is free and the registration is new. -/
theorem register_no_seat_eq (db : DB) (slug : String) (req : RegisterRequest)
    (event : Event)
    (hev : findEvent db slug = Option.some event)
    (htid : truthyNat req.telegram_id = true)
    (hname : truthyStr req.full_name = true)
    (hseat : req.seat_id = Option.none) :
    register db slug req =
      (if !event.is_paid && (regUpsert db event req).2.2 then
         ((createTicket (regUpsert db event req).1 (regUpsert db event req).2.1 Option.none).1,
          RegResult.ok 201 (regUpsert db event req).2.1
            (Option.some (createTicket (regUpsert db event req).1
              (regUpsert db event req).2.1 Option.none).2))
       else
         ((regUpsert db event req).1,
          RegResult.ok (if (regUpsert db event req).2.2 then 201 else 200)
            (regUpsert db event req).2.1 Option.none)) := by
  have hsf : truthyNat Option.none = false := rfl
  unfold register regUpsert dbAfterUser acquiringUser
  rw [hev]
  simp [htid, hname, hsf, hseat]

/-- The registration row returned by the upsert is in the resulting
registrations table. -/
theorem getOrCreateRegistration_mem (db : DB) (e : Event) (u : UserProfile)
    (promo : String) :
    (getOrCreateRegistration db e u promo).2.1 ∈
      (getOrCreateRegistration db e u promo).1.registrations := by
  unfold getOrCreateRegistration
  cases h : db.registrations.find? (fun r => r.event == e.id && r.user == u.id) with
  | none => simp
  | some r => exact List.mem_of_find?_eq_some h

/-- The registration row of the register view's upsert is in the
resulting registrations table. -/
theorem regUpsert_mem (db : DB) (event : Event) (req : RegisterRequest) :
    (regUpsert db event req).2.1 ∈ (regUpsert db event req).1.registrations := by
  unfold regUpsert
  exact getOrCreateRegistration_mem _ _ _ _

/-- The ticket returned by the seat-binding get-or-create references the
given seat, whether it was created with it, repointed to it, or already
pointed at it. -/
theorem ticketGetOrCreateSeat_result_seat (db : DB) (reg : Registration) (seat : Seat) :
    (ticketGetOrCreateSeat db reg seat).2.seat = Option.some seat.id := by
  unfold ticketGetOrCreateSeat
  cases h : db.tickets.find? (fun t => t.registration == reg.id) with
  | none => rfl
  | some t =>
    by_cases hts : t.seat = Option.some seat.id
    · simp [hts]
    · simp [hts]

/-- Failure shape of the seat path: no seat with the requested id under
the event commits the upserts and reports NotFound. -/
theorem register_seatNotFound_eq (db : DB) (slug : String) (req : RegisterRequest)
    (event : Event) (sid : Nat)
    (hev : findEvent db slug = Option.some event)
    (htid : truthyNat req.telegram_id = true)
    (hname : truthyStr req.full_name = true)
    (hsid : req.seat_id = Option.some sid) (hs0 : sid ≠ 0)
    (h : db.seats.find? (fun s => s.id == sid && s.event == event.id) = Option.none) :
    register db slug req = ((regUpsert db event req).1, RegResult.seatNotFound) := by
  rw [register_seat_eq db slug req event sid hev htid hname hsid hs0,
    regUpsert_seats, h]

/-- Failure shape of the seat path: a non-FREE seat commits the upserts
and reports Unavailable. -/
theorem register_seatUnavailable_eq (db : DB) (slug : String) (req : RegisterRequest)
    (event : Event) (sid : Nat) (seat : Seat)
    (hev : findEvent db slug = Option.some event)
    (htid : truthyNat req.telegram_id = true)
    (hname : truthyStr req.full_name = true)
    (hsid : req.seat_id = Option.some sid) (hs0 : sid ≠ 0)
    (h : db.seats.find? (fun s => s.id == sid && s.event == event.id) = Option.some seat)
    (hne : seat.status ≠ SeatStatus.free) :
    register db slug req = ((regUpsert db event req).1, RegResult.seatUnavailable) := by
  rw [register_seat_eq db slug req event sid hev htid hname hsid hs0,
    regUpsert_seats, h]
  simp [hne]

/-- Success shape of the seat path, seats table: the FREE seat row is
updated to RESERVED (paid event) or SOLD (free event) with the acquiring
user as reserved_by; all other rows are untouched. -/
theorem register_seatFree_seats (db : DB) (slug : String) (req : RegisterRequest)
    (event : Event) (sid : Nat) (seat : Seat)
    (hev : findEvent db slug = Option.some event)
    (htid : truthyNat req.telegram_id = true)
    (hname : truthyStr req.full_name = true)
    (hsid : req.seat_id = Option.some sid) (hs0 : sid ≠ 0)
    (h : db.seats.find? (fun s => s.id == sid && s.event == event.id) = Option.some seat)
    (hfree : seat.status = SeatStatus.free) :
    (register db slug req).1.seats =
      db.seats.map (fun s =>
        if s.id == seat.id then
          { s with
            status := if event.is_paid then SeatStatus.reserved else SeatStatus.sold,
            reserved_by := Option.some (acquiringUser db req).id }
        else s) := by
  rw [register_seat_eq db slug req event sid hev htid hname hsid hs0,
    regUpsert_seats, h]
  simp only [hfree]
  simp [ticketGetOrCreateSeat_seats]

/-- Success shape of the seat path, result: the call returns ok with the
upserted registration and a ticket bound to the acquired seat. -/
theorem register_seatFree_ok (db : DB) (slug : String) (req : RegisterRequest)
    (event : Event) (sid : Nat) (seat : Seat)
    (hev : findEvent db slug = Option.some event)
    (htid : truthyNat req.telegram_id = true)
    (hname : truthyStr req.full_name = true)
    (hsid : req.seat_id = Option.some sid) (hs0 : sid ≠ 0)
    (h : db.seats.find? (fun s => s.id == sid && s.event == event.id) = Option.some seat)
    (hfree : seat.status = SeatStatus.free) :
    ∃ t, (register db slug req).2 =
          RegResult.ok (if (regUpsert db event req).2.2 then 201 else 200)
            (regUpsert db event req).2.1 (Option.some t) ∧
        t.seat = Option.some seat.id := by
  rw [register_seat_eq db slug req event sid hev htid hname hsid hs0,
    regUpsert_seats, h]
  simp only [hfree]
  exact ⟨_, rfl, ticketGetOrCreateSeat_result_seat _ _ _⟩

/-- C2: behaviour of a register call that supplies a seat id (seat ids
are database primary keys, hence nonzero; the view tests the field with
Python truthiness, so 0 would read as absent).  If no seat with that id
exists under the resolved event the call fails NotFound, committing
exactly the upserts; if the seat exists with a non-FREE status it fails
Unavailable, again committing exactly the upserts (all seats unchanged);
if the seat is FREE, its row is updated to RESERVED for a paid event and
SOLD for a free one with the acquiring user as reserved_by, and the
returned ticket is bound to that seat. -/
theorem register_seat_outcomes (db : DB) (slug : String) (req : RegisterRequest)
    (event : Event) (sid : Nat)
    (hev : findEvent db slug = Option.some event)
    (htid : truthyNat req.telegram_id = true)
    (hname : truthyStr req.full_name = true)
    (hsid : req.seat_id = Option.some sid) (hs0 : sid ≠ 0) :
    (db.seats.find? (fun s => s.id == sid && s.event == event.id) = Option.none →
      register db slug req = ((regUpsert db event req).1, RegResult.seatNotFound)) ∧
    (∀ seat, db.seats.find? (fun s => s.id == sid && s.event == event.id) = Option.some seat →
      seat.status ≠ SeatStatus.free →
      register db slug req = ((regUpsert db event req).1, RegResult.seatUnavailable)) ∧
    (∀ seat, db.seats.find? (fun s => s.id == sid && s.event == event.id) = Option.some seat →
      seat.status = SeatStatus.free →
      (register db slug req).1.seats =
        db.seats.map (fun s =>
          if s.id == seat.id then
            { s with
              status := if event.is_paid then SeatStatus.reserved else SeatStatus.sold,
              reserved_by := Option.some (acquiringUser db req).id }
          else s) ∧
      ∃ t, (register db slug req).2 =
            RegResult.ok (if (regUpsert db event req).2.2 then 201 else 200)
              (regUpsert db event req).2.1 (Option.some t) ∧
          t.seat = Option.some seat.id) := by
  refine ⟨?_, ?_, ?_⟩
  · intro h
    exact register_seatNotFound_eq db slug req event sid hev htid hname hsid hs0 h
  · intro seat h hne
    exact register_seatUnavailable_eq db slug req event sid seat hev htid hname hsid hs0 h hne
  · intro seat h hfree
    exact ⟨register_seatFree_seats db slug req event sid seat hev htid hname hsid hs0 h hfree,
      register_seatFree_ok db slug req event sid seat hev htid hname hsid hs0 h hfree⟩

/-- Witness for register_seat_outcomes: registering on the paid gala
fixture with free seat 5 marks the seat RESERVED for user 1 and returns
a ticket bound to seat 5. -/
theorem register_seat_outcomes_witness :
    (register db0 "gala" reqSeat5).1.seats =
      db0.seats.map (fun s =>
        if s.id == seat5.id then
          { s with
            status := if paidEvent.is_paid then SeatStatus.reserved else SeatStatus.sold,
            reserved_by := Option.some (acquiringUser db0 reqSeat5).id }
        else s) ∧
    ∃ t, (register db0 "gala" reqSeat5).2 =
          RegResult.ok (if (regUpsert db0 paidEvent reqSeat5).2.2 then 201 else 200)
            (regUpsert db0 paidEvent reqSeat5).2.1 (Option.some t) ∧
        t.seat = Option.some seat5.id :=
  (register_seat_outcomes db0 "gala" reqSeat5 paidEvent 5 (by decide) (by decide)
    (by decide) rfl (by decide)).2.2 seat5 (by decide) rfl

/-- C8: when the register view fails at seat acquisition (NotFound or
Unavailable) after the registration upsert, exactly the user and
registration upserts are committed: the resulting store is the
post-upsert store, every seat and ticket is as before the call, and the
(possibly newly created) registration row is in the committed store.
Django's transaction.atomic commits these rows because the view returns
an error Response instead of raising. -/
theorem register_seat_failure_commits_upserts (db : DB) (slug : String)
    (req : RegisterRequest) (event : Event) (sid : Nat)
    (hev : findEvent db slug = Option.some event)
    (htid : truthyNat req.telegram_id = true)
    (hname : truthyStr req.full_name = true)
    (hsid : req.seat_id = Option.some sid) (hs0 : sid ≠ 0)
    (hfail : (register db slug req).2 = RegResult.seatNotFound ∨
             (register db slug req).2 = RegResult.seatUnavailable) :
    (register db slug req).1 = (regUpsert db event req).1 ∧
    (register db slug req).1.seats = db.seats ∧
    (register db slug req).1.tickets = db.tickets ∧
    (regUpsert db event req).2.1 ∈ (register db slug req).1.registrations := by
  have hconc : register db slug req = ((regUpsert db event req).1, RegResult.seatNotFound) ∨
      register db slug req = ((regUpsert db event req).1, RegResult.seatUnavailable) := by
    cases h : db.seats.find? (fun s => s.id == sid && s.event == event.id) with
    | none =>
      exact Or.inl (register_seatNotFound_eq db slug req event sid hev htid hname hsid hs0 h)
    | some seat =>
      by_cases hfr : seat.status = SeatStatus.free
      · obtain ⟨t, hok, -⟩ :=
          register_seatFree_ok db slug req event sid seat hev htid hname hsid hs0 h hfr
        cases hfail with
        | inl hf => rw [hf] at hok; cases hok
        | inr hf => rw [hf] at hok; cases hok
      · exact Or.inr
          (register_seatUnavailable_eq db slug req event sid seat hev htid hname hsid hs0 h hfr)
  have hdb : (register db slug req).1 = (regUpsert db event req).1 := by
    cases hconc with
    | inl h => rw [h]
    | inr h => rw [h]
  refine ⟨hdb, ?_, ?_, ?_⟩
  · rw [hdb]; exact regUpsert_seats db event req
  · rw [hdb]; exact regUpsert_tickets db event req
  · rw [hdb]; exact regUpsert_mem db event req

/-- Witness for register_seat_failure_commits_upserts: registering on
the gala fixture with the nonexistent seat id 999 fails NotFound but
commits the created registration. -/
theorem register_seat_failure_commits_upserts_witness :
    (register db0 "gala" reqSeat999).1 = (regUpsert db0 paidEvent reqSeat999).1 ∧
    (register db0 "gala" reqSeat999).1.seats = db0.seats ∧
    (register db0 "gala" reqSeat999).1.tickets = db0.tickets ∧
    (regUpsert db0 paidEvent reqSeat999).2.1 ∈
      (register db0 "gala" reqSeat999).1.registrations :=
  register_seat_failure_commits_upserts db0 "gala" reqSeat999 paidEvent 999
    (by decide) (by decide) (by decide) rfl (by decide) (Or.inl (by decide))

/-- The user upsert leaves the events table unchanged. -/
theorem getOrCreateUser_events (db : DB) (tid : Nat) (a b c : String) :
    (getOrCreateUser db tid a b c).1.events = db.events := by
  unfold getOrCreateUser; split <;> rfl

/-- The registration upsert leaves the events table unchanged. -/
theorem getOrCreateRegistration_events (db : DB) (e : Event) (u : UserProfile)
    (promo : String) : (getOrCreateRegistration db e u promo).1.events = db.events := by
  unfold getOrCreateRegistration; split <;> rfl

/-- Ticket creation leaves the users table unchanged. -/
theorem createTicket_users (db : DB) (reg : Registration) (s : Option Nat) :
    (createTicket db reg s).1.users = db.users := rfl

/-- Ticket creation leaves the events table unchanged. -/
theorem createTicket_events (db : DB) (reg : Registration) (s : Option Nat) :
    (createTicket db reg s).1.events = db.events := rfl

/-- After the user upsert, looking the user up again finds exactly the
upserted row. -/
theorem getOrCreateUser_find (db : DB) (tid : Nat) (a b c : String) :
    (getOrCreateUser db tid a b c).1.users.find? (fun x => x.telegram_id == tid) =
      Option.some (getOrCreateUser db tid a b c).2.1 := by
  unfold getOrCreateUser
  cases h : db.users.find? (fun x => x.telegram_id == tid) with
  | none => simp [List.find?_append, h]
  | some u => simp [h]

/-- A user lookup hit makes the upsert return the found row unchanged. -/
theorem getOrCreateUser_found (db2 : DB) (tid : Nat) (a b c : String) (u : UserProfile)
    (h : db2.users.find? (fun x => x.telegram_id == tid) = Option.some u) :
    getOrCreateUser db2 tid a b c = (db2, u, false) := by
  unfold getOrCreateUser
  rw [h]

/-- After the registration upsert, looking the registration up again
finds exactly the upserted row. -/
theorem getOrCreateRegistration_find (db : DB) (e : Event) (u : UserProfile)
    (promo : String) :
    (getOrCreateRegistration db e u promo).1.registrations.find?
        (fun r => r.event == e.id && r.user == u.id) =
      Option.some (getOrCreateRegistration db e u promo).2.1 := by
  unfold getOrCreateRegistration
  cases h : db.registrations.find? (fun r => r.event == e.id && r.user == u.id) with
  | none => simp [List.find?_append, h]
  | some r => simp [h]

/-- A registration lookup hit makes the upsert return the found row
unchanged. -/
theorem getOrCreateRegistration_found (db2 : DB) (e : Event) (u : UserProfile)
    (promo : String) (r : Registration)
    (h : db2.registrations.find? (fun x => x.event == e.id && x.user == u.id) =
      Option.some r) :
    getOrCreateRegistration db2 e u promo = (db2, r, false) := by
  unfold getOrCreateRegistration
  rw [h]

/-- The register view's upserts leave the users table as the user upsert
left it. -/
theorem regUpsert_users (db : DB) (event : Event) (req : RegisterRequest) :
    (regUpsert db event req).1.users = (dbAfterUser db req).users := by
  unfold regUpsert
  exact getOrCreateRegistration_users _ _ _ _

/-- The register view's upserts leave the events table unchanged. -/
theorem regUpsert_events (db : DB) (event : Event) (req : RegisterRequest) :
    (regUpsert db event req).1.events = db.events := by
  unfold regUpsert dbAfterUser
  rw [getOrCreateRegistration_events, getOrCreateUser_events]

/-- After the register view's user upsert, the user lookup finds the
acquiring user. -/
theorem dbAfterUser_find (db : DB) (req : RegisterRequest) :
    (dbAfterUser db req).users.find?
        (fun x => x.telegram_id == req.telegram_id.getD 0) =
      Option.some (acquiringUser db req) := by
  unfold dbAfterUser acquiringUser
  exact getOrCreateUser_find db _ _ _ _

/-- After the register view's upserts, the registration lookup finds the
upserted registration. -/
theorem regUpsert_find (db : DB) (event : Event) (req : RegisterRequest) :
    (regUpsert db event req).1.registrations.find?
        (fun r => r.event == event.id && r.user == (acquiringUser db req).id) =
      Option.some (regUpsert db event req).2.1 := by
  unfold regUpsert
  exact getOrCreateRegistration_find _ _ _ _

/-- Replaying a no-seat register call against any store whose users,
registrations and events tables are as the first call's upserts left
them returns 200 with the same registration row, no ticket, and no
store change at all. -/
theorem register_no_seat_replay (db db1 : DB) (slug : String) (req : RegisterRequest)
    (event : Event)
    (hev : findEvent db slug = Option.some event)
    (htid : truthyNat req.telegram_id = true)
    (hname : truthyStr req.full_name = true)
    (hseat : req.seat_id = Option.none)
    (hus : db1.users = (dbAfterUser db req).users)
    (hrg : db1.registrations = (regUpsert db event req).1.registrations)
    (hevs : db1.events = db.events) :
    register db1 slug req =
      (db1, RegResult.ok 200 (regUpsert db event req).2.1 Option.none) := by
  have hev2 : findEvent db1 slug = Option.some event := by
    unfold findEvent at hev ⊢
    rw [hevs]
    exact hev
  have hgu2 : getOrCreateUser db1 (req.telegram_id.getD 0) req.telegram_username
      (req.full_name.getD "") req.phone = (db1, acquiringUser db req, false) :=
    getOrCreateUser_found db1 _ _ _ _ _ (by rw [hus]; exact dbAfterUser_find db req)
  have hup2 : regUpsert db1 event req = (db1, (regUpsert db event req).2.1, false) := by
    unfold regUpsert dbAfterUser acquiringUser
    rw [hgu2]
    exact getOrCreateRegistration_found db1 event _ req.promo_code _
      (by rw [hrg]; exact regUpsert_find db event req)
  rw [register_no_seat_eq db1 slug req event hev2 htid hname hseat, hup2]
  simp

/-- Row shape of a newly created registration: exactly the defaults of
views_student.py lines 50-59. -/
theorem getOrCreateRegistration_created (db : DB) (e : Event) (u : UserProfile)
    (p : String) (h : (getOrCreateRegistration db e u p).2.2 = true) :
    (getOrCreateRegistration db e u p).2.1 =
      { id := db.nextRegId, event := e.id, user := u.id,
        status := if e.is_paid then RegistrationStatus.pending
                  else RegistrationStatus.confirmed,
        payment_status := if e.is_paid then PaymentStatus.pending
                          else PaymentStatus.none,
        promo_code := p, final_price := e.base_price.getD 0 } := by
  unfold getOrCreateRegistration at h ⊢
  revert h
  cases hf : db.registrations.find? (fun r => r.event == e.id && r.user == u.id) with
  | none => intro _; rfl
  | some r => intro h; exact Bool.noConfusion h

/-- Row shape of the registration created by a first register call. -/
theorem regUpsert_created (db : DB) (event : Event) (req : RegisterRequest)
    (h : (regUpsert db event req).2.2 = true) :
    (regUpsert db event req).2.1 =
      { id := (dbAfterUser db req).nextRegId, event := event.id,
        user := (acquiringUser db req).id,
        status := if event.is_paid then RegistrationStatus.pending
                  else RegistrationStatus.confirmed,
        payment_status := if event.is_paid then PaymentStatus.pending
                          else PaymentStatus.none,
        promo_code := req.promo_code,
        final_price := event.base_price.getD 0 } := by
  unfold regUpsert at h ⊢
  exact getOrCreateRegistration_created _ _ _ _ h

/-- C4: a successful first register call (the registration upsert
created the row) on an active free event yields a CONFIRMED
registration with payment_status NONE, the given promo code and
final_price = base_price or 0, reports 201, and returns a ticket in the
same call; no PENDING state is ever visible.  The request is assumed not
to carry the degenerate seat_id 0, which can never name a seat row
(primary keys are positive) yet reads as absent under the view's Python
truthiness test. -/
theorem register_free_first_call (db : DB) (slug : String) (req : RegisterRequest)
    (event : Event) (code : Nat) (reg : Registration) (tk : Option Ticket)
    (hev : findEvent db slug = Option.some event)
    (hfree : event.is_paid = false)
    (htid : truthyNat req.telegram_id = true)
    (hname : truthyStr req.full_name = true)
    (hzero : req.seat_id ≠ Option.some 0)
    (hfirst : (regUpsert db event req).2.2 = true)
    (hok : (register db slug req).2 = RegResult.ok code reg tk) :
    reg.status = RegistrationStatus.confirmed ∧
    reg.payment_status = PaymentStatus.none ∧
    reg.promo_code = req.promo_code ∧
    reg.final_price = event.base_price.getD 0 ∧
    code = 201 ∧
    ∃ t, tk = Option.some t := by
  have hregfields : (regUpsert db event req).2.1.status = RegistrationStatus.confirmed ∧
      (regUpsert db event req).2.1.payment_status = PaymentStatus.none ∧
      (regUpsert db event req).2.1.promo_code = req.promo_code ∧
      (regUpsert db event req).2.1.final_price = event.base_price.getD 0 := by
    rw [regUpsert_created db event req hfirst]
    simp [hfree]
  cases hsid : req.seat_id with
  | none =>
    rw [register_no_seat_eq db slug req event hev htid hname hsid] at hok
    rw [hfree, hfirst] at hok
    simp only [Bool.not_false, Bool.true_and, if_true] at hok
    cases hok
    exact ⟨hregfields.1, hregfields.2.1, hregfields.2.2.1, hregfields.2.2.2, rfl, _, rfl⟩
  | some sid =>
    have hs0 : sid ≠ 0 := by
      intro h0
      exact hzero (by rw [hsid, h0])
    cases hseat : db.seats.find? (fun s => s.id == sid && s.event == event.id) with
    | none =>
      rw [register_seatNotFound_eq db slug req event sid hev htid hname hsid hs0 hseat] at hok
      exact RegResult.noConfusion hok
    | some seat =>
      by_cases hfr : seat.status = SeatStatus.free
      · obtain ⟨t, hok2, -⟩ :=
          register_seatFree_ok db slug req event sid seat hev htid hname hsid hs0 hseat hfr
        rw [hok] at hok2
        rw [hfirst] at hok2
        simp only [if_true] at hok2
        injection hok2 with h1 h2 h3
        subst h1; subst h2; subst h3
        exact ⟨hregfields.1, hregfields.2.1, hregfields.2.2.1, hregfields.2.2.2, rfl, t, rfl⟩
      · rw [register_seatUnavailable_eq db slug req event sid seat hev htid hname hsid hs0
          hseat hfr] at hok
        exact RegResult.noConfusion hok

/-- Witness for register_free_first_call: the first free-event fixture
registration returns 201 with a CONFIRMED registration and a ticket. -/
theorem register_free_first_call_witness :
    regFreeRow.status = RegistrationStatus.confirmed ∧
    regFreeRow.payment_status = PaymentStatus.none ∧
    regFreeRow.promo_code = reqNoSeat.promo_code ∧
    regFreeRow.final_price = freeEvent.base_price.getD 0 ∧
    (201 : Nat) = 201 ∧
    ∃ t, Option.some ticketFreeRow = Option.some t :=
  register_free_first_call db0 "picnic" reqNoSeat freeEvent 201 regFreeRow
    (Option.some ticketFreeRow) (by decide) rfl (by decide) (by decide)
    (by decide) (by decide) (by decide)

/-- Expected registration row when registering for the paid gala
fixture without a seat. -/
def regPaidNoSeatRow : Registration :=
  { id := 1, event := 2, user := 1, status := RegistrationStatus.pending,
    payment_status := PaymentStatus.pending, promo_code := "P",
    final_price := 100000 }

/-- C3 as stated is refuted on paid events: registering twice for the
paid gala fixture with no seat_id succeeds both times with the same
registration (201 then 200) yet issues ZERO tickets in total, not
exactly one — a paid, seatless registration never creates a ticket. -/
theorem register_paid_twice_zero_tickets :
    (register db0 "gala" reqNoSeat).2 =
      RegResult.ok 201 regPaidNoSeatRow Option.none ∧
    (register (register db0 "gala" reqNoSeat).1 "gala" reqNoSeat).2 =
      RegResult.ok 200 regPaidNoSeatRow Option.none ∧
    (register (register db0 "gala" reqNoSeat).1 "gala" reqNoSeat).1.tickets.length = 0 := by
  refine ⟨?_, ?_, ?_⟩ <;> decide

/-- C3 (amended): with no seat_id and the registration newly created by
the first call, the replay returns the same registration row (201 then
200, same id), changes nothing at all in the store — in particular it
neither creates a second ticket nor rotates the existing ticket's
token — and the total number of tickets issued is one when the event is
free (created by the first call) and zero when the event is paid. -/
theorem register_replay_idempotent (db : DB) (slug : String) (req : RegisterRequest)
    (event : Event)
    (hev : findEvent db slug = Option.some event)
    (htid : truthyNat req.telegram_id = true)
    (hname : truthyStr req.full_name = true)
    (hseat : req.seat_id = Option.none)
    (hfirst : (regUpsert db event req).2.2 = true) :
    ∃ tk,
      (register db slug req).2 =
        RegResult.ok 201 (regUpsert db event req).2.1 tk ∧
      register (register db slug req).1 slug req =
        ((register db slug req).1,
         RegResult.ok 200 (regUpsert db event req).2.1 Option.none) ∧
      (event.is_paid = true →
        tk = Option.none ∧ (register db slug req).1.tickets = db.tickets) ∧
      (event.is_paid = false →
        ∃ t, tk = Option.some t ∧
          (register db slug req).1.tickets = db.tickets ++ [t]) := by
  have hnf1 := register_no_seat_eq db slug req event hev htid hname hseat
  cases hp : event.is_paid with
  | true =>
    have h1 : register db slug req =
        ((regUpsert db event req).1,
         RegResult.ok 201 (regUpsert db event req).2.1 Option.none) := by
      rw [hnf1, hp, hfirst]
      simp
    refine ⟨Option.none, ?_, ?_, ?_, ?_⟩
    · rw [h1]
    · refine register_no_seat_replay db _ slug req event hev htid hname hseat ?_ ?_ ?_
      · rw [h1]; exact regUpsert_users db event req
      · rw [h1]
      · rw [h1]; exact regUpsert_events db event req
    · intro _
      exact ⟨rfl, by rw [h1]; exact regUpsert_tickets db event req⟩
    · intro hq
      exact Bool.noConfusion hq
  | false =>
    have h1 : register db slug req =
        ((createTicket (regUpsert db event req).1 (regUpsert db event req).2.1
            Option.none).1,
         RegResult.ok 201 (regUpsert db event req).2.1
           (Option.some (createTicket (regUpsert db event req).1
             (regUpsert db event req).2.1 Option.none).2)) := by
      rw [hnf1, hp, hfirst]
      simp
    refine ⟨Option.some (createTicket (regUpsert db event req).1
      (regUpsert db event req).2.1 Option.none).2, ?_, ?_, ?_, ?_⟩
    · rw [h1]
    · refine register_no_seat_replay db _ slug req event hev htid hname hseat ?_ ?_ ?_
      · rw [h1, createTicket_users]; exact regUpsert_users db event req
      · rw [h1, createTicket_registrations]
      · rw [h1, createTicket_events]; exact regUpsert_events db event req
    · intro hq
      exact Bool.noConfusion hq
    · intro _
      refine ⟨_, rfl, ?_⟩
      rw [h1, createTicket_tickets, regUpsert_tickets]

/-- Witness for register_replay_idempotent: the free picnic fixture. -/
theorem register_replay_idempotent_witness :
    ∃ tk,
      (register db0 "picnic" reqNoSeat).2 =
        RegResult.ok 201 (regUpsert db0 freeEvent reqNoSeat).2.1 tk ∧
      register (register db0 "picnic" reqNoSeat).1 "picnic" reqNoSeat =
        ((register db0 "picnic" reqNoSeat).1,
         RegResult.ok 200 (regUpsert db0 freeEvent reqNoSeat).2.1 Option.none) ∧
      (freeEvent.is_paid = true →
        tk = Option.none ∧ (register db0 "picnic" reqNoSeat).1.tickets = db0.tickets) ∧
      (freeEvent.is_paid = false →
        ∃ t, tk = Option.some t ∧
          (register db0 "picnic" reqNoSeat).1.tickets = db0.tickets ++ [t]) :=
  register_replay_idempotent db0 "picnic" reqNoSeat freeEvent (by decide) (by decide)
    (by decide) rfl (by decide)

/-- An operation of the system: one registration request or one
check-in request. -/
inductive Op
  | reg (slug : String) (req : RegisterRequest)
  | scan (req : CheckInRequest)

/-- Effect of one operation on the store. -/
def applyOp (db : DB) : Op → DB
  | Op.reg slug req => (register db slug req).1
  | Op.scan req => (checkIn db req).1

/-- Effect of a sequence of operations on the store. -/
def runOps (db : DB) (ops : List Op) : DB := ops.foldl applyOp db

/-- A missing event leaves the store untouched. -/
theorem register_eventNotFound_eq (db : DB) (slug : String) (req : RegisterRequest)
    (hev : findEvent db slug = Option.none) :
    register db slug req = (db, RegResult.eventNotFound) := by
  unfold register
  rw [hev]

/-- A validation failure leaves the store untouched. -/
theorem register_badRequest_eq (db : DB) (slug : String) (req : RegisterRequest)
    (event : Event)
    (hev : findEvent db slug = Option.some event)
    (hval : (!truthyNat req.telegram_id || !truthyStr req.full_name) = true) :
    register db slug req = (db, RegResult.badRequest) := by
  unfold register
  rw [hev]
  simp [hval]

/-- The degenerate request value seat_id = 0 is falsy, so the view takes
neither the seat branch nor (since the field is not absent) the
free-ticket branch: only the upserts happen. -/
theorem register_seat_zero_eq (db : DB) (slug : String) (req : RegisterRequest)
    (event : Event)
    (hev : findEvent db slug = Option.some event)
    (htid : truthyNat req.telegram_id = true)
    (hname : truthyStr req.full_name = true)
    (hzero : req.seat_id = Option.some 0) :
    register db slug req =
      ((regUpsert db event req).1,
       RegResult.ok (if (regUpsert db event req).2.2 then 201 else 200)
         (regUpsert db event req).2.1 Option.none) := by
  have h0 : truthyNat (Option.some 0) = false := rfl
  have h0n : ((Option.some 0 : Option Nat) == Option.none) = false := rfl
  unfold register regUpsert dbAfterUser acquiringUser
  rw [hev]
  simp [htid, hname, hzero, h0, h0n]

/-- A check-in never touches the seats table. -/
theorem checkIn_seats (db : DB) (req : CheckInRequest) :
    (checkIn db req).1.seats = db.seats := by
  unfold checkIn
  split
  · rfl
  · split
    · rfl
    · split
      · rfl
      · split <;> rfl

/-- Every register call either leaves the seats table unchanged or
rewrites exactly the rows of one seat id to RESERVED or SOLD with a
reserving user: no branch ever writes FREE into a seat. -/
theorem register_seats_shape (db : DB) (slug : String) (req : RegisterRequest) :
    (register db slug req).1.seats = db.seats ∨
    ∃ sid2 uid st, (st = SeatStatus.reserved ∨ st = SeatStatus.sold) ∧
      (register db slug req).1.seats =
        db.seats.map (fun s =>
          if s.id == sid2 then { s with status := st, reserved_by := Option.some uid }
          else s) := by
  cases hev : findEvent db slug with
  | none =>
    rw [register_eventNotFound_eq db slug req hev]
    exact Or.inl rfl
  | some event =>
    by_cases hval : (!truthyNat req.telegram_id || !truthyStr req.full_name) = true
    · rw [register_badRequest_eq db slug req event hev hval]
      exact Or.inl rfl
    · have hpair : truthyNat req.telegram_id = true ∧ truthyStr req.full_name = true := by
        constructor <;> [skip; skip] <;>
          (revert hval
           cases truthyNat req.telegram_id <;> cases truthyStr req.full_name <;> simp)
      obtain ⟨htid, hname⟩ := hpair
      cases hsid : req.seat_id with
      | none =>
        rw [register_no_seat_eq db slug req event hev htid hname hsid]
        cases hc : (!event.is_paid && (regUpsert db event req).2.2) with
        | true =>
          refine Or.inl ?_
          simp only [hc, if_true]
          rw [createTicket_seats]
          exact regUpsert_seats db event req
        | false =>
          refine Or.inl ?_
          rw [if_neg (fun hcc => Bool.noConfusion hcc)]
          exact regUpsert_seats db event req
      | some sid =>
        by_cases hz : sid = 0
        · subst hz
          rw [register_seat_zero_eq db slug req event hev htid hname hsid]
          exact Or.inl (regUpsert_seats db event req)
        · cases hfind : db.seats.find? (fun s => s.id == sid && s.event == event.id) with
          | none =>
            rw [register_seatNotFound_eq db slug req event sid hev htid hname hsid hz hfind]
            exact Or.inl (regUpsert_seats db event req)
          | some seat =>
            by_cases hfr : seat.status = SeatStatus.free
            · refine Or.inr ⟨seat.id, (acquiringUser db req).id,
                if event.is_paid then SeatStatus.reserved else SeatStatus.sold, ?_,
                register_seatFree_seats db slug req event sid seat hev htid hname hsid hz
                  hfind hfr⟩
              cases event.is_paid <;> simp
            · rw [register_seatUnavailable_eq db slug req event sid seat hev htid hname hsid
                hz hfind hfr]
              exact Or.inl (regUpsert_seats db event req)

/-- A register call never turns a non-FREE seat row back into FREE. -/
theorem register_seat_never_freed (db : DB) (slug : String) (req : RegisterRequest)
    (i : Nat) (s s2 : Seat)
    (h1 : db.seats[i]? = Option.some s)
    (h2 : (register db slug req).1.seats[i]? = Option.some s2)
    (hs : s.status ≠ SeatStatus.free) : s2.status ≠ SeatStatus.free := by
  rcases register_seats_shape db slug req with hsh | ⟨sid2, uid, st, hst, hsh⟩
  · rw [hsh, h1] at h2
    injection h2 with h2
    rw [← h2]
    exact hs
  · rw [hsh, List.getElem?_map, h1] at h2
    injection h2 with h2
    rw [← h2]
    show (if (s.id == sid2) = true then
        ({ id := s.id, event := s.event, status := st,
           reserved_by := Option.some uid } : Seat)
      else s).status ≠ SeatStatus.free
    by_cases hc : (s.id == sid2) = true
    · rw [if_pos hc]
      rcases hst with h | h <;> rw [h] <;> intro hcc <;> exact SeatStatus.noConfusion hcc
    · rw [if_neg hc]
      exact hs

/-- No operation of the system ever writes FREE into a seat row that is
not FREE: releasing a seat is unimplemented. -/
theorem applyOp_seat_never_freed (db : DB) (op : Op) (i : Nat) (s s2 : Seat)
    (h1 : db.seats[i]? = Option.some s)
    (h2 : (applyOp db op).seats[i]? = Option.some s2)
    (hs : s.status ≠ SeatStatus.free) : s2.status ≠ SeatStatus.free := by
  cases op with
  | reg slug req => exact register_seat_never_freed db slug req i s s2 h1 h2 hs
  | scan req =>
    unfold applyOp at h2
    rw [checkIn_seats, h1] at h2
    injection h2 with h2
    rw [← h2]
    exact hs

/-- The seat-binding ticket get-or-create either leaves the tickets
table unchanged, or repoints the seat field of the rows of one ticket
id, or appends one fresh unused ticket; it never touches is_used. -/
theorem ticketGetOrCreateSeat_tickets_shape (db : DB) (reg : Registration) (seat : Seat) :
    (ticketGetOrCreateSeat db reg seat).1.tickets = db.tickets ∨
    (∃ tid, (ticketGetOrCreateSeat db reg seat).1.tickets =
      db.tickets.map (fun x =>
        if x.id == tid then { x with seat := Option.some seat.id } else x)) ∨
    (∃ nt, nt.is_used = false ∧
      (ticketGetOrCreateSeat db reg seat).1.tickets = db.tickets ++ [nt]) := by
  unfold ticketGetOrCreateSeat
  split
  case h_1 t h =>
    by_cases hts : (t.seat != Option.some seat.id) = true
    · rw [if_pos hts]
      exact Or.inr (Or.inl ⟨t.id, rfl⟩)
    · rw [if_neg hts]
      exact Or.inl rfl
  case h_2 h =>
    exact Or.inr (Or.inr ⟨(createTicket db reg (Option.some seat.id)).2, rfl,
      createTicket_tickets db reg (Option.some seat.id)⟩)

/-- Tickets table of a successful seat acquisition: exactly the
seat-binding get-or-create applied after the upserts and the seat-row
update (which touch no ticket). -/
theorem register_seatFree_tickets_eq (db : DB) (slug : String) (req : RegisterRequest)
    (event : Event) (sid : Nat) (seat : Seat)
    (hev : findEvent db slug = Option.some event)
    (htid : truthyNat req.telegram_id = true)
    (hname : truthyStr req.full_name = true)
    (hsid : req.seat_id = Option.some sid) (hs0 : sid ≠ 0)
    (h : db.seats.find? (fun s => s.id == sid && s.event == event.id) = Option.some seat)
    (hfree : seat.status = SeatStatus.free) :
    (register db slug req).1.tickets =
      (ticketGetOrCreateSeat
        { (regUpsert db event req).1 with
          seats := db.seats.map (fun s =>
            if s.id == seat.id then
              { s with
                status := if event.is_paid then SeatStatus.reserved else SeatStatus.sold,
                reserved_by := Option.some (acquiringUser db req).id }
            else s) }
        (regUpsert db event req).2.1
        { seat with
          status := if event.is_paid then SeatStatus.reserved else SeatStatus.sold,
          reserved_by := Option.some (acquiringUser db req).id }).1.tickets := by
  rw [register_seat_eq db slug req event sid hev htid hname hsid hs0,
    regUpsert_seats, h]
  simp only [hfree]
  rfl

/-- Every register call either leaves the tickets table unchanged, or
repoints the seat reference of one ticket id, or appends one fresh
unused ticket: no branch writes is_used or rotates a token. -/
theorem register_tickets_shape (db : DB) (slug : String) (req : RegisterRequest) :
    (register db slug req).1.tickets = db.tickets ∨
    (∃ tid sid2, (register db slug req).1.tickets =
      db.tickets.map (fun x =>
        if x.id == tid then { x with seat := Option.some sid2 } else x)) ∨
    (∃ nt, nt.is_used = false ∧
      (register db slug req).1.tickets = db.tickets ++ [nt]) := by
  cases hev : findEvent db slug with
  | none =>
    rw [register_eventNotFound_eq db slug req hev]
    exact Or.inl rfl
  | some event =>
    by_cases hval : (!truthyNat req.telegram_id || !truthyStr req.full_name) = true
    · rw [register_badRequest_eq db slug req event hev hval]
      exact Or.inl rfl
    · have hpair : truthyNat req.telegram_id = true ∧ truthyStr req.full_name = true := by
        constructor <;> [skip; skip] <;>
          (revert hval
           cases truthyNat req.telegram_id <;> cases truthyStr req.full_name <;> simp)
      obtain ⟨htid, hname⟩ := hpair
      cases hsid : req.seat_id with
      | none =>
        rw [register_no_seat_eq db slug req event hev htid hname hsid]
        cases hc : (!event.is_paid && (regUpsert db event req).2.2) with
        | true =>
          refine Or.inr (Or.inr ⟨(createTicket (regUpsert db event req).1
            (regUpsert db event req).2.1 Option.none).2, rfl, ?_⟩)
          rw [if_pos rfl]
          rw [createTicket_tickets]
          rw [regUpsert_tickets]
        | false =>
          refine Or.inl ?_
          rw [if_neg (fun hcc => Bool.noConfusion hcc)]
          exact regUpsert_tickets db event req
      | some sid =>
        by_cases hz : sid = 0
        · subst hz
          rw [register_seat_zero_eq db slug req event hev htid hname hsid]
          exact Or.inl (regUpsert_tickets db event req)
        · cases hfind : db.seats.find? (fun s => s.id == sid && s.event == event.id) with
          | none =>
            rw [register_seatNotFound_eq db slug req event sid hev htid hname hsid hz hfind]
            exact Or.inl (regUpsert_tickets db event req)
          | some seat =>
            by_cases hfr : seat.status = SeatStatus.free
            · rw [register_seatFree_tickets_eq db slug req event sid seat hev htid hname
                hsid hz hfind hfr]
              have hdb3 : ({ (regUpsert db event req).1 with
                  seats := db.seats.map (fun s =>
                    if s.id == seat.id then
                      { s with
                        status := if event.is_paid then SeatStatus.reserved
                                  else SeatStatus.sold,
                        reserved_by := Option.some (acquiringUser db req).id }
                    else s) } : DB).tickets = db.tickets := regUpsert_tickets db event req
              rcases ticketGetOrCreateSeat_tickets_shape
                  { (regUpsert db event req).1 with
                    seats := db.seats.map (fun s =>
                      if s.id == seat.id then
                        { s with
                          status := if event.is_paid then SeatStatus.reserved
                                    else SeatStatus.sold,
                          reserved_by := Option.some (acquiringUser db req).id }
                      else s) }
                  (regUpsert db event req).2.1
                  { seat with
                    status := if event.is_paid then SeatStatus.reserved
                              else SeatStatus.sold,
                    reserved_by := Option.some (acquiringUser db req).id }
                with hsh | ⟨tid, hsh⟩ | ⟨nt, hnt, hsh⟩
              · rw [hsh, hdb3]
                exact Or.inl rfl
              · rw [hsh, hdb3]
                exact Or.inr (Or.inl ⟨tid, seat.id, rfl⟩)
              · rw [hsh, hdb3]
                exact Or.inr (Or.inr ⟨nt, hnt, rfl⟩)
            · rw [register_seatUnavailable_eq db slug req event sid seat hev htid hname
                hsid hz hfind hfr]
              exact Or.inl (regUpsert_tickets db event req)

/-- A check-in either leaves the tickets table unchanged, or — exactly
when it returns ok — marks the rows of one ticket id used at the
current clock. -/
theorem checkIn_tickets_shape (db : DB) (req : CheckInRequest) :
    (checkIn db req).1.tickets = db.tickets ∨
    (∃ tid, (checkIn db req).1.tickets =
        db.tickets.map (fun x =>
          if x.id == tid then { x with is_used := true, used_at := Option.some db.now }
          else x) ∧
      (checkIn db req).2 = CheckInResult.ok (Option.some db.now)) := by
  unfold checkIn
  split
  · exact Or.inl rfl
  · split
    · exact Or.inl rfl
    · split
      · exact Or.inl rfl
      · split
        · next ticket hused hfind hch =>
          exact Or.inr ⟨ticket.id, rfl, rfl⟩
        · exact Or.inl rfl

/-- Indexing a mapped table at a row position. -/
theorem getElem?_map_some {α β : Type} (f : α → β) (l : List α) (i : Nat) (a : α)
    (h : l[i]? = Option.some a) : (l.map f)[i]? = Option.some (f a) := by
  rw [List.getElem?_map, h]
  rfl

/-- A present row position is inside the table. -/
theorem getElem?_some_lt {α : Type} (l : List α) (i : Nat) (a : α)
    (h : l[i]? = Option.some a) : i < l.length := by
  by_contra hge
  rw [List.getElem?_eq_none (Nat.le_of_not_lt hge)] at h
  exact Option.noConfusion h

/-- No operation of the system ever unsets is_used: a used ticket row
stays used across one operation. -/
theorem applyOp_used_mono (db : DB) (op : Op) (i : Nat) (t : Ticket)
    (h : db.tickets[i]? = Option.some t) (hu : t.is_used = true) :
    ∃ t2, (applyOp db op).tickets[i]? = Option.some t2 ∧ t2.is_used = true := by
  cases op with
  | reg slug req =>
    show ∃ t2, (register db slug req).1.tickets[i]? = Option.some t2 ∧ t2.is_used = true
    rcases register_tickets_shape db slug req with hsh | ⟨tid, sid2, hsh⟩ | ⟨nt, hnt, hsh⟩
    · exact ⟨t, by rw [hsh]; exact h, hu⟩
    · refine ⟨_, by rw [hsh]; exact getElem?_map_some _ _ _ _ h, ?_⟩
      by_cases hc : (t.id == tid) = true
      · rw [if_pos hc]
        exact hu
      · rw [if_neg hc]
        exact hu
    · refine ⟨t, ?_, hu⟩
      rw [hsh, List.getElem?_append_left (getElem?_some_lt _ _ _ h)]
      exact h
  | scan req =>
    show ∃ t2, (checkIn db req).1.tickets[i]? = Option.some t2 ∧ t2.is_used = true
    rcases checkIn_tickets_shape db req with hsh | ⟨tid, hsh, -⟩
    · exact ⟨t, by rw [hsh]; exact h, hu⟩
    · refine ⟨_, by rw [hsh]; exact getElem?_map_some _ _ _ _ h, ?_⟩
      by_cases hc : (t.id == tid) = true
      · rw [if_pos hc]
      · rw [if_neg hc]
        exact hu

/-- A false→true flip of a ticket row across one operation can only be a
check-in, and that check-in returned ok with the row's new used_at. -/
theorem applyOp_flip_ok (db : DB) (op : Op) (i : Nat) (t t2 : Ticket)
    (h1 : db.tickets[i]? = Option.some t)
    (h2 : (applyOp db op).tickets[i]? = Option.some t2)
    (hf : t.is_used = false) (hu : t2.is_used = true) :
    ∃ creq, op = Op.scan creq ∧ (checkIn db creq).2 = CheckInResult.ok t2.used_at := by
  cases op with
  | reg slug req =>
    exfalso
    have h2r : (register db slug req).1.tickets[i]? = Option.some t2 := h2
    rcases register_tickets_shape db slug req with hsh | ⟨tid, sid2, hsh⟩ | ⟨nt, hnt, hsh⟩
    · rw [hsh, h1] at h2r
      injection h2r with he
      rw [← he, hf] at hu
      exact Bool.noConfusion hu
    · rw [hsh, getElem?_map_some _ _ _ _ h1] at h2r
      injection h2r with he
      by_cases hc : (t.id == tid) = true
      · rw [if_pos hc] at he
        rw [← he] at hu
        rw [hf] at hu
        exact Bool.noConfusion hu
      · rw [if_neg hc] at he
        rw [← he, hf] at hu
        exact Bool.noConfusion hu
    · rw [hsh, List.getElem?_append_left (getElem?_some_lt _ _ _ h1), h1] at h2r
      injection h2r with he
      rw [← he, hf] at hu
      exact Bool.noConfusion hu
  | scan req =>
    have h2c : (checkIn db req).1.tickets[i]? = Option.some t2 := h2
    rcases checkIn_tickets_shape db req with hsh | ⟨tid, hsh, hok⟩
    · exfalso
      rw [hsh, h1] at h2c
      injection h2c with he
      rw [← he, hf] at hu
      exact Bool.noConfusion hu
    · rw [hsh, getElem?_map_some _ _ _ _ h1] at h2c
      injection h2c with he
      by_cases hc : (t.id == tid) = true
      · rw [if_pos hc] at he
        refine ⟨req, rfl, ?_⟩
        rw [hok, ← he]
      · exfalso
        rw [if_neg hc] at he
        rw [← he, hf] at hu
        exact Bool.noConfusion hu

/-- A used ticket row stays used across any sequence of operations. -/
theorem runOps_used_mono (db : DB) (ops : List Op) (i : Nat) (t : Ticket)
    (h : db.tickets[i]? = Option.some t) (hu : t.is_used = true) :
    ∃ t2, (runOps db ops).tickets[i]? = Option.some t2 ∧ t2.is_used = true := by
  induction ops generalizing db t with
  | nil => exact ⟨t, h, hu⟩
  | cons op rest ih =>
    obtain ⟨t2, h2, hu2⟩ := applyOp_used_mono db op i t h hu
    exact ih (applyOp db op) t2 h2 hu2

/-- C7: over the two operations of the system (register, check-in), a
ticket row's is_used flips false→true only in an operation that is a
check-in returning ok (so at most once: after the flip every later
check-in of that ticket takes the AlreadyUsed branch), and a used row
stays used across any single operation and any sequence of operations:
USED is terminal. -/
theorem ticket_used_terminal :
    (∀ (db : DB) (op : Op) (i : Nat) (t : Ticket),
        db.tickets[i]? = Option.some t → t.is_used = true →
        ∃ t2, (applyOp db op).tickets[i]? = Option.some t2 ∧ t2.is_used = true) ∧
    (∀ (db : DB) (op : Op) (i : Nat) (t t2 : Ticket),
        db.tickets[i]? = Option.some t →
        (applyOp db op).tickets[i]? = Option.some t2 →
        t.is_used = false → t2.is_used = true →
        ∃ creq, op = Op.scan creq ∧
          (checkIn db creq).2 = CheckInResult.ok t2.used_at) ∧
    (∀ (db : DB) (ops : List Op) (i : Nat) (t : Ticket),
        db.tickets[i]? = Option.some t → t.is_used = true →
        ∃ t2, (runOps db ops).tickets[i]? = Option.some t2 ∧ t2.is_used = true) :=
  ⟨applyOp_used_mono, applyOp_flip_ok, runOps_used_mono⟩

/-- Witness for ticket_used_terminal: the redeemed fixture ticket stays
used across a replayed check-in followed by a registration. -/
theorem ticket_used_terminal_witness :
    ∃ t2, (runOps dbUsed
        [Op.scan { token := Option.some "tks1", checker_telegram_id := Option.some 77 },
         Op.reg "picnic" reqNoSeat]).tickets[0]? = Option.some t2 ∧
      t2.is_used = true :=
  ticket_used_terminal.2.2 dbUsed
    [Op.scan { token := Option.some "tks1", checker_telegram_id := Option.some 77 },
     Op.reg "picnic" reqNoSeat] 0
    { id := 1, registration := 1, seat := Option.none, token := "tks1",
      is_used := true, used_at := Option.some 42 }
    (by decide) rfl

/-- When the registration already has a ticket bound to a different
seat, the seat-binding get-or-create repoints exactly that ticket id to
the new seat, leaving every other row byte-identical. -/
theorem ticketGetOrCreateSeat_repoint (db : DB) (tks : List Ticket) (reg : Registration)
    (seat : Seat) (tA : Ticket)
    (htks : db.tickets = tks)
    (ht : tks.find? (fun t => t.registration == reg.id) = Option.some tA)
    (hne : (tA.seat != Option.some seat.id) = true) :
    (ticketGetOrCreateSeat db reg seat).1.tickets =
      tks.map (fun x =>
        if x.id == tA.id then { x with seat := Option.some seat.id } else x) := by
  subst htks
  unfold ticketGetOrCreateSeat
  split
  case h_1 t h =>
    rw [ht] at h
    injection h with h
    subst h
    rw [if_pos hne]
  case h_2 h =>
    rw [ht] at h
    exact Option.noConfusion h

/-- Ticket table of a register call that repoints an existing ticket
from an old seat to a newly acquired one. -/
theorem register_seatFree_tickets_repoint (db : DB) (slug : String)
    (req : RegisterRequest) (event : Event) (sid : Nat) (seat : Seat) (tA : Ticket)
    (hev : findEvent db slug = Option.some event)
    (htid : truthyNat req.telegram_id = true)
    (hname : truthyStr req.full_name = true)
    (hsid : req.seat_id = Option.some sid) (hs0 : sid ≠ 0)
    (hfind : db.seats.find? (fun s => s.id == sid && s.event == event.id) =
      Option.some seat)
    (hfree : seat.status = SeatStatus.free)
    (ht : db.tickets.find?
        (fun t => t.registration == (regUpsert db event req).2.1.id) = Option.some tA)
    (hne : (tA.seat != Option.some seat.id) = true) :
    (register db slug req).1.tickets =
      db.tickets.map (fun x =>
        if x.id == tA.id then { x with seat := Option.some seat.id } else x) := by
  rw [register_seatFree_tickets_eq db slug req event sid seat hev htid hname hsid hs0
    hfind hfree]
  exact ticketGetOrCreateSeat_repoint _ db.tickets _ _ tA
    (regUpsert_tickets db event req) ht hne

/-- Every seat row other than the acquired one is returned unchanged by
a successful seat acquisition. -/
theorem register_seatFree_seats_other (db : DB) (slug : String)
    (req : RegisterRequest) (event : Event) (sid : Nat) (seat : Seat)
    (hev : findEvent db slug = Option.some event)
    (htid : truthyNat req.telegram_id = true)
    (hname : truthyStr req.full_name = true)
    (hsid : req.seat_id = Option.some sid) (hs0 : sid ≠ 0)
    (hfind : db.seats.find? (fun s => s.id == sid && s.event == event.id) =
      Option.some seat)
    (hfree : seat.status = SeatStatus.free)
    (i : Nat) (sA : Seat)
    (hA : db.seats[i]? = Option.some sA)
    (hneq : (sA.id == seat.id) = false) :
    (register db slug req).1.seats[i]? = Option.some sA := by
  rw [register_seatFree_seats db slug req event sid seat hev htid hname hsid hs0
    hfind hfree]
  rw [getElem?_map_some _ _ _ _ hA]
  rw [hneq]
  rw [if_neg (fun hcc => Bool.noConfusion hcc)]

/-- C10: when register is called for a registration whose existing
ticket references seat A and a different FREE seat B is supplied, the
ticket rows of that ticket id are repointed to B, B's rows become
RESERVED (paid event) or SOLD (free event) with the acquiring user
recorded, and every other seat row — in particular seat A, which no
ticket references any more — is returned byte-identical, its status and
reserved_by untouched; moreover no operation of the system (register or
check-in) ever turns a non-FREE seat row back into FREE, so the
abandoned seat A is never released. -/
theorem register_repoint_never_releases :
    (∀ (db : DB) (slug : String) (req : RegisterRequest) (event : Event) (sid : Nat)
        (seat : Seat) (tA : Ticket),
       findEvent db slug = Option.some event →
       truthyNat req.telegram_id = true →
       truthyStr req.full_name = true →
       req.seat_id = Option.some sid → sid ≠ 0 →
       db.seats.find? (fun s => s.id == sid && s.event == event.id) =
         Option.some seat →
       seat.status = SeatStatus.free →
       db.tickets.find?
           (fun t => t.registration == (regUpsert db event req).2.1.id) =
         Option.some tA →
       (tA.seat != Option.some seat.id) = true →
       (register db slug req).1.tickets =
         db.tickets.map (fun x =>
           if x.id == tA.id then { x with seat := Option.some seat.id } else x) ∧
       (register db slug req).1.seats =
         db.seats.map (fun s =>
           if s.id == seat.id then
             { s with
               status := if event.is_paid then SeatStatus.reserved else SeatStatus.sold,
               reserved_by := Option.some (acquiringUser db req).id }
           else s) ∧
       (∀ (i : Nat) (sA : Seat), db.seats[i]? = Option.some sA →
         (sA.id == seat.id) = false →
         (register db slug req).1.seats[i]? = Option.some sA)) ∧
    (∀ (db : DB) (op : Op) (i : Nat) (s s2 : Seat),
       db.seats[i]? = Option.some s → (applyOp db op).seats[i]? = Option.some s2 →
       s.status ≠ SeatStatus.free → s2.status ≠ SeatStatus.free) := by
  constructor
  · intro db slug req event sid seat tA hev htid hname hsid hs0 hfind hfree ht hne
    exact ⟨register_seatFree_tickets_repoint db slug req event sid seat tA hev htid hname
        hsid hs0 hfind hfree ht hne,
      register_seatFree_seats db slug req event sid seat hev htid hname hsid hs0
        hfind hfree,
      fun i sA hA hneq => register_seatFree_seats_other db slug req event sid seat hev
        htid hname hsid hs0 hfind hfree i sA hA hneq⟩
  · exact applyOp_seat_never_freed

/-- User row fixture backing the repoint scenario. -/
def aliceRow : UserProfile :=
  { id := 1, telegram_id := 10, telegram_username := "alice",
    full_name := "Alice A", phone := "+1" }

/-- Seat A of the repoint scenario: already RESERVED by user 1. -/
def seatArow : Seat :=
  { id := 5, event := 2, status := SeatStatus.reserved, reserved_by := Option.some 1 }

/-- Seat B of the repoint scenario: still FREE. -/
def seatBrow : Seat :=
  { id := 6, event := 2, status := SeatStatus.free, reserved_by := Option.none }

/-- Store fixture for the repoint scenario: the user already holds a
registration for the paid gala with a ticket bound to seat A. -/
def dbRepoint : DB :=
  { events := [paidEvent], users := [aliceRow], seats := [seatArow, seatBrow],
    registrations := [regPaidRow], tickets := [ticketPaidRow], logs := [],
    tgAccounts := [], nextUserId := 2, nextRegId := 2, nextTicketId := 2,
    tokenSupply := ["tks9"], now := 43 }

/-- Registration request fixture targeting seat 6. -/
def reqSeat6 : RegisterRequest :=
  { telegram_id := Option.some 10, telegram_username := "alice",
    full_name := Option.some "Alice A", phone := "+1", promo_code := "P",
    seat_id := Option.some 6 }

/-- Witness for register_repoint_never_releases: repointing the fixture
ticket from seat 5 to seat 6 leaves seat 5 reserved and untouched. -/
theorem register_repoint_never_releases_witness :
    (register dbRepoint "gala" reqSeat6).1.tickets =
      dbRepoint.tickets.map (fun x =>
        if x.id == ticketPaidRow.id then { x with seat := Option.some seatBrow.id }
        else x) ∧
    (register dbRepoint "gala" reqSeat6).1.seats =
      dbRepoint.seats.map (fun s =>
        if s.id == seatBrow.id then
          { s with
            status := if paidEvent.is_paid then SeatStatus.reserved else SeatStatus.sold,
            reserved_by := Option.some (acquiringUser dbRepoint reqSeat6).id }
        else s) ∧
    (∀ (i : Nat) (sA : Seat), dbRepoint.seats[i]? = Option.some sA →
      (sA.id == seatBrow.id) = false →
      (register dbRepoint "gala" reqSeat6).1.seats[i]? = Option.some sA) :=
  register_repoint_never_releases.1 dbRepoint "gala" reqSeat6 paidEvent 6 seatBrow
    ticketPaidRow (by decide) (by decide) (by decide) rfl (by decide) (by decide)
    rfl (by decide) (by decide)

/-- The sixteen characters uuid4().hex and secrets.token_hex draw
from. -/
def hexChars : List Char := "0123456789abcdef".data

/-- Decimal value of a lowercase hex digit. -/
def hexVal (c : Char) : Nat :=
  if c.toNat ≥ 97 then c.toNat - 87 else c.toNat - 48

/-- Decode a hex character string two characters (one byte) at a
time. -/
def decodePairs : List Char → List Nat
  | c1 :: c2 :: rest => (hexVal c1 * 16 + hexVal c2) :: decodePairs rest
  | _ => []

/-- hexVal inverts hexDigit on nibbles. -/
theorem hexVal_hexDigit : ∀ n, n < 16 → hexVal (hexDigit n) = n := by decide

/-- Every nibble encodes to a character of the hex alphabet. -/
theorem hexDigit_mem_hexChars : ∀ n, n < 16 → hexDigit n ∈ hexChars := by decide

/-- Decoding inverts the hex encoding of one byte. -/
theorem decodePairs_byteHex (b : Nat) (hb : b < 256) (rest : List Char) :
    decodePairs (byteHex b ++ rest) = b :: decodePairs rest := by
  show decodePairs (hexDigit (b / 16 % 16) :: hexDigit (b % 16) :: rest) =
    b :: decodePairs rest
  simp only [decodePairs]
  rw [hexVal_hexDigit _ (Nat.mod_lt _ (by decide)),
    hexVal_hexDigit _ (Nat.mod_lt _ (by decide))]
  congr 1
  omega

/-- Decoding inverts the hex encoding of a byte string. -/
theorem decodePairs_bytesHex (bs : List Nat) (hb : ∀ b ∈ bs, b < 256) :
    decodePairs ((bs.map byteHex).flatten) = bs := by
  induction bs with
  | nil => rfl
  | cons b rest ih =>
    rw [List.map_cons, List.flatten_cons,
      decodePairs_byteHex b (hb b (List.mem_cons_self b rest)) _,
      ih (fun x hx => hb x (List.mem_cons_of_mem b hx))]

/-- The hex encoding of a byte string has two characters per byte. -/
theorem flatten_byteHex_length (bs : List Nat) :
    ((bs.map byteHex).flatten).length = 2 * bs.length := by
  induction bs with
  | nil => rfl
  | cons b rest ih =>
    rw [List.map_cons, List.flatten_cons, List.length_append, ih,
      show (byteHex b).length = 2 from rfl, List.length_cons]
    omega

/-- Every character of a hex-encoded byte string is a hex digit. -/
theorem flatten_byteHex_chars (bs : List Nat) (c : Char)
    (hc : c ∈ (bs.map byteHex).flatten) : c ∈ hexChars := by
  rw [List.mem_flatten] at hc
  obtain ⟨l, hl, hcl⟩ := hc
  rw [List.mem_map] at hl
  obtain ⟨b, -, hb⟩ := hl
  rw [← hb] at hcl
  unfold byteHex at hcl
  rcases List.mem_cons.mp hcl with h | hcl2
  · rw [h]
    exact hexDigit_mem_hexChars _ (Nat.mod_lt _ (by decide))
  · rcases List.mem_cons.mp hcl2 with h | h
    · rw [h]
      exact hexDigit_mem_hexChars _ (Nat.mod_lt _ (by decide))
    · cases h

/-- C9: generate_ticket_token is exactly the concatenation of the hex
form of the 16 freshly drawn UUID bytes with the hex form of the 16
independently drawn secret bytes; the result is a fixed-length 64-char
string over the lowercase hex alphabet (hence URL-safe), and it
determines the two draws — distinct draw pairs give distinct tokens.
Its only inputs are the two random draws: the definition takes no user
id, seat id or timestamp, so two calls made in identical surrounding
registration state differ exactly as their draws do. -/
theorem generate_ticket_token_spec (u s : List Nat)
    (hu : u.length = 16) (hs : s.length = 16)
    (hub : ∀ b ∈ u, b < 256) (hsb : ∀ b ∈ s, b < 256) :
    generate_ticket_token u s = uuid4Hex u ++ token_hex s ∧
    (generate_ticket_token u s).length = 64 ∧
    (∀ c ∈ (generate_ticket_token u s).data, c ∈ hexChars) ∧
    (∀ u2 s2, u2.length = 16 → (∀ b ∈ u2, b < 256) → (∀ b ∈ s2, b < 256) →
      generate_ticket_token u2 s2 = generate_ticket_token u s → u2 = u ∧ s2 = s) := by
  refine ⟨rfl, ?_, ?_, ?_⟩
  · show ((u.map byteHex).flatten ++ (s.map byteHex).flatten).length = 64
    rw [List.length_append, flatten_byteHex_length, flatten_byteHex_length, hu, hs]
  · intro c hc
    have hc2 : c ∈ (u.map byteHex).flatten ++ (s.map byteHex).flatten := hc
    rcases List.mem_append.mp hc2 with h | h
    · exact flatten_byteHex_chars u c h
    · exact flatten_byteHex_chars s c h
  · intro u2 s2 hu2 hub2 hsb2 heq
    have hdata : (u2.map byteHex).flatten ++ (s2.map byteHex).flatten =
        (u.map byteHex).flatten ++ (s.map byteHex).flatten := congrArg String.data heq
    have hlen : ((u2.map byteHex).flatten).length = ((u.map byteHex).flatten).length := by
      rw [flatten_byteHex_length, flatten_byteHex_length, hu2, hu]
    obtain ⟨h1, h2⟩ := List.append_inj hdata hlen
    constructor
    · rw [← decodePairs_bytesHex u2 hub2, ← decodePairs_bytesHex u hub, h1]
    · rw [← decodePairs_bytesHex s2 hsb2, ← decodePairs_bytesHex s hsb, h2]

/-- A concrete UUID draw (16 bytes). -/
def uuidDraw : List Nat := [18, 52, 86, 120, 154, 188, 222, 240, 1, 2, 3, 4, 5, 6, 7, 8]

/-- A concrete secret draw (16 bytes). -/
def secretDraw : List Nat := [255, 0, 17, 34, 51, 68, 85, 102, 119, 136, 153, 170, 187, 204, 221, 238]

/-- Witness for generate_ticket_token_spec at concrete draws. -/
theorem generate_ticket_token_spec_witness :
    generate_ticket_token uuidDraw secretDraw = uuid4Hex uuidDraw ++ token_hex secretDraw ∧
    (generate_ticket_token uuidDraw secretDraw).length = 64 ∧
    (∀ c ∈ (generate_ticket_token uuidDraw secretDraw).data, c ∈ hexChars) ∧
    (∀ u2 s2, u2.length = 16 → (∀ b ∈ u2, b < 256) → (∀ b ∈ s2, b < 256) →
      generate_ticket_token u2 s2 = generate_ticket_token uuidDraw secretDraw →
      u2 = uuidDraw ∧ s2 = secretDraw) :=
  generate_ticket_token_spec uuidDraw secretDraw (by decide) (by decide)
    (by decide) (by decide)

/-- Witness for checkin_replay_and_unknown_token: in the redeemed
fixture store, an unknown token gives NotFound with the store unchanged,
and replaying tks1 gives AlreadyUsed with the original timestamp 42 and
the store unchanged. -/
theorem checkin_replay_and_unknown_token_witness :
    checkIn dbUsed { token := Option.some "zzz", checker_telegram_id := Option.some 77 } =
      (dbUsed, CheckInResult.notFound) ∧
    checkIn dbUsed { token := Option.some "tks1", checker_telegram_id := Option.some 77 } =
      (dbUsed, CheckInResult.alreadyUsed (Option.some 42)) := by
  constructor
  · exact (checkin_replay_and_unknown_token dbUsed
      { token := Option.some "zzz", checker_telegram_id := Option.some 77 } (by decide)).1
      (by decide)
  · exact (checkin_replay_and_unknown_token dbUsed
      { token := Option.some "tks1", checker_telegram_id := Option.some 77 } (by decide)).2
      { id := 1, registration := 1, seat := Option.none, token := "tks1",
        is_used := true, used_at := Option.some 42 }
      (by decide) (by decide)

end StudentUnion
